import Mathlib

/-!
Shallow embedding of `src/python/server.py`, a line-oriented dispatcher that
translates JSON requests into `kubectl` / `helm` subprocess invocations.

External effects (subprocess execution, the working-directory filesystem) are
modelled explicitly: an `Oracle` decides the outcome of each subprocess
invocation, the filesystem is an association list from file names to contents,
and every handler threads a state `St` that records the filesystem plus an
event trace (process spawns, file writes, file removals).  Python exceptions
become `Except String` values carrying `str(exc)`.
-/

set_option autoImplicit false

namespace KubeMCP

/-- Model of the Python values that flow through the server: the JSON-decoded
request parameters (`Dict[str, Any]`), plus `None`, used by `dict.get`. -/
inductive PyVal where
  | vnull
  | vbool (b : Bool)
  | vnum (n : Int)
  | vstr (s : String)
  | vlist (items : List PyVal)
  | vdict (entries : List (String × PyVal))

/-- A Python `Dict[str, Any]` (JSON object): ordered key/value pairs. -/
abbrev PyDict := List (String × PyVal)

/-- `d[key]` / `d.get(key)` lookup on a dict. -/
def dictGet : PyDict → String → Option PyVal
  | [], _ => none
  | (k, v) :: rest, key => if k = key then some v else dictGet rest key

/-- Python truthiness (`if x:`): `None`, `False`, `0`, `""`, `[]`, and
an empty dict are falsy; everything else is truthy. -/
def truthy : PyVal → Bool
  | .vnull => false
  | .vbool b => b
  | .vnum n => !(n == 0)
  | .vstr s => !(s == "")
  | .vlist items => !items.isEmpty
  | .vdict entries => !entries.isEmpty

/-- Python `==` against a string literal (`resource != "nodes"` in the code):
true exactly when the value is that very string. -/
def pyEqStr : PyVal → String → Bool
  | .vstr s, t => s == t
  | _, _ => false

/-- Characters `str.strip()` removes (ASCII whitespace). -/
def isPySpace (c : Char) : Bool :=
  c = ' ' || c = '\t' || c = '\n' || c = '\r' || c = '\x0b' || c = '\x0c'

/-- Python `line.strip()`: drop leading and trailing whitespace. -/
def pyStrip (s : String) : String :=
  String.mk (((s.data.dropWhile isPySpace).reverse.dropWhile isPySpace).reverse)

/-- The characters before the first occurrence of `sep`. -/
def takeUntil : List Char → Char → List Char
  | [], _ => []
  | c :: rest, sep => if c = sep then [] else c :: takeUntil rest sep

/-- Python `s.split(sep)[0]` for a one-character separator: the substring of
`s` before the first occurrence of `sep` (all of `s` when `sep` is absent). -/
def pySplitFirst (s : String) (sep : Char) : String :=
  String.mk (takeUntil s.data sep)

/-- `repr` of a Python string, as it appears inside `repr` of an argument
list.  Exact for strings without quotes, backslashes or control characters,
which is the only form the claims exercise. -/
def pyReprStr (s : String) : String := "\x27" ++ s ++ "\x27"

mutual

/-- Python `repr` of a value (used by `str()` on non-string values, e.g. in
f-string interpolation of a non-string). -/
def pyRepr : PyVal → String
  | .vnull => "None"
  | .vbool true => "True"
  | .vbool false => "False"
  | .vnum n => toString n
  | .vstr s => pyReprStr s
  | .vlist items => "[" ++ pyReprList items ++ "]"
  | .vdict entries => "\x7b" ++ pyReprEntries entries ++ "\x7d"

def pyReprList : List PyVal → String
  | [] => ""
  | [x] => pyRepr x
  | x :: y :: rest => pyRepr x ++ ", " ++ pyReprList (y :: rest)

def pyReprEntries : List (String × PyVal) → String
  | [] => ""
  | [(k, v)] => pyReprStr k ++ ": " ++ pyRepr v
  | (k, v) :: e :: rest => pyReprStr k ++ ": " ++ pyRepr v ++ ", " ++ pyReprEntries (e :: rest)

end

/-- Python `str()` conversion as performed by f-string interpolation:
identity on strings, `repr` otherwise. -/
def fstr : PyVal → String
  | .vstr s => s
  | v => pyRepr v

/-- One hex digit, lower case, for `\uXXXX` escapes. -/
def hexDigit (n : Nat) : Char :=
  if n < 10 then Char.ofNat (48 + n) else Char.ofNat (87 + (n % 16))

/-- `\uXXXX` escape used by `json.dumps` with its default `ensure_ascii`. -/
def uEscape (n : Nat) : String :=
  "\\u" ++ String.mk [hexDigit (n / 4096 % 16), hexDigit (n / 256 % 16),
    hexDigit (n / 16 % 16), hexDigit (n % 16)]

/-- Escaping of one character inside a JSON string literal, following
`json.dumps` defaults (`ensure_ascii=True`); covers the Basic Multilingual
Plane, which is all the claims exercise. -/
def jsonEscapeChar (c : Char) : String :=
  if c = '"' then "\\\""
  else if c = '\\' then "\\\\"
  else if c = '\n' then "\\n"
  else if c = '\t' then "\\t"
  else if c = '\r' then "\\r"
  else if c.toNat = 8 then "\\b"
  else if c.toNat = 12 then "\\f"
  else if c.toNat < 32 || 126 < c.toNat then uEscape c.toNat
  else String.singleton c

/-- A JSON string literal for `s`, as produced by `json.dumps`. -/
def jsonQuote (s : String) : String :=
  "\"" ++ String.join (s.data.map jsonEscapeChar) ++ "\""

mutual

/-- `json.dumps` with default separators (`", "` between items, `": "` after
object keys), as the server uses for responses and for the helm values
file. -/
def jsonDumps : PyVal → String
  | .vnull => "null"
  | .vbool true => "true"
  | .vbool false => "false"
  | .vnum n => toString n
  | .vstr s => jsonQuote s
  | .vlist items => "[" ++ jsonDumpsList items ++ "]"
  | .vdict entries => "\x7b" ++ jsonDumpsEntries entries ++ "\x7d"

def jsonDumpsList : List PyVal → String
  | [] => ""
  | [x] => jsonDumps x
  | x :: y :: rest => jsonDumps x ++ ", " ++ jsonDumpsList (y :: rest)

def jsonDumpsEntries : List (String × PyVal) → String
  | [] => ""
  | [(k, v)] => jsonQuote k ++ ": " ++ jsonDumps v
  | (k, v) :: e :: rest => jsonQuote k ++ ": " ++ jsonDumps v ++ ", " ++ jsonDumpsEntries (e :: rest)

end

/-- Outcome of one finished subprocess, as the operating system reports it. -/
structure ProcResult where
  exitCode : Nat
  stdout : String
  stderr : String
  deriving DecidableEq

/-- One subprocess invocation: the program, its argument list, and the text
fed to its standard input (`none` when no stdin is supplied). -/
structure Invocation where
  program : String
  args : List String
  stdinInput : Option String := none
  deriving DecidableEq

/-- The environment of the server: what each subprocess invocation returns. -/
abbrev Oracle := Invocation → ProcResult

/-- Observable external events of a handler, in order. -/
inductive Event where
  | proc (inv : Invocation) (res : ProcResult)
  | fsWrite (name content : String)
  | fsRemove (name : String)
  deriving DecidableEq

/-- The working-directory filesystem: file name to file content. -/
abbrev FileSys := List (String × String)

/-- Content of a file, if it exists. -/
def fsGet : FileSys → String → Option String
  | [], _ => none
  | (k, v) :: rest, name => if k = name then some v else fsGet rest name

/-- `open(name, "w")` followed by a full write: create or overwrite. -/
def fsSet : FileSys → String → String → FileSys
  | [], name, content => [(name, content)]
  | (k, v) :: rest, name, content =>
    if k = name then (name, content) :: rest else (k, v) :: fsSet rest name content

/-- `os.remove(name)`: drop the file. -/
def fsDel : FileSys → String → FileSys
  | [], _ => []
  | (k, v) :: rest, name => if k = name then rest else (k, v) :: fsDel rest name

/-- State threaded through the handlers: the filesystem and the event trace. -/
structure St where
  fs : FileSys
  trace : List Event
  deriving DecidableEq

/-- `str(exc)` for a `KeyError` on a missing dict key. -/
def keyErrorMsg (key : String) : String := "\x27" ++ key ++ "\x27"

/-- `repr` of a `list[str]`, as embedded in `CalledProcessError` messages. -/
def pyReprStrList (l : List String) : String :=
  "[" ++ String.intercalate ", " (l.map pyReprStr) ++ "]"

/-- `str(exc)` for `subprocess.CalledProcessError(code, cmd)` with a positive
exit code, which is how `check_output` reports a non-zero exit. -/
def calledProcessErrorMsg (cmd : List String) (code : Nat) : String :=
  "Command \x27" ++ pyReprStrList cmd ++ "\x27 returned non-zero exit status "
    ++ toString code ++ "."

/-- `str(exc)` for the `TypeError` `subprocess` raises when an argument (or
the `input` text) is not a string.  The claims never exercise this path; only
the fact that it raises before any process is spawned matters. -/
def typeErrorMsg : String := "expected str, bytes or os.PathLike object"

/-- `str(exc)` for the attribute/type error raised when `params` (or the
request itself) is not a dict and the handler calls `.get` / subscripts it.
The claims never exercise this path. -/
def notADictMsg : String := "object has no attribute \x27get\x27"

/-- `subprocess` converts the argument list at spawn time and raises a
`TypeError` on the first non-string entry, before any process starts. -/
def subprocessArgs : List PyVal → Except String (List String)
  | [] => .ok []
  | .vstr s :: rest => (subprocessArgs rest).map (fun l => s :: l)
  | _ :: _ => .error typeErrorMsg

/-- `subprocess.check_output([program] + args, text=True)`: spawn the
process, record the invocation, return captured stdout on exit 0 and raise
`CalledProcessError` otherwise. -/
def checkOutputCall (o : Oracle) (program : String) (args : List PyVal) (st : St) :
    Except String String × St :=
  match subprocessArgs args with
  | .error e => (.error e, st)
  | .ok argStrs =>
    let inv : Invocation := { program := program, args := argStrs, stdinInput := none }
    let res := o inv
    let st := { st with trace := st.trace ++ [.proc inv res] }
    if res.exitCode = 0 then (.ok res.stdout, st)
    else (.error (calledProcessErrorMsg (program :: argStrs) res.exitCode), st)

/-- `KubernetesManager.kubectl`: `check_output(["kubectl"] + args)`. -/
def managerKubectl (o : Oracle) (args : List PyVal) (st : St) :
    Except String String × St :=
  checkOutputCall o "kubectl" args st

/-- `KubernetesManager.helm`: `check_output(["helm"] + args)`. -/
def managerHelm (o : Oracle) (args : List PyVal) (st : St) :
    Except String String × St :=
  checkOutputCall o "helm" args st

/-- The success envelope every handler returns:
`{"content": [{"type": "text", "text": result}]}`. -/
def textResponse (result : String) : PyVal :=
  .vdict [("content", .vlist [.vdict [("type", .vstr "text"), ("text", .vstr result)]])]

/-- `result = <call>` followed by `return {"content": ...}`: wrap a
successful call in the envelope, re-raise an error unchanged. -/
def wrapText (p : Except String String × St) : Except String PyVal × St :=
  match p with
  | (.error e, st) => (.error e, st)
  | (.ok result, st) => (.ok (textResponse result), st)

/-- Argument construction of `kubectl_get` (server.py lines 30-35):
`["get", resource]`, then the name when truthy, then `-n namespace` when the
namespace is truthy and the resource is not `"nodes"`, then `-o output`. -/
def kubectl_get_args (resource name nspace output : PyVal) : List PyVal :=
  let args := [.vstr "get", resource]
  let args := if truthy name then args ++ [name] else args
  let args :=
    if truthy nspace && !(pyEqStr resource "nodes") then
      args ++ [.vstr "-n", nspace]
    else args
  args ++ [.vstr "-o", output]

/-- Handler `kubectl_get` (server.py lines 24-38). -/
def kubectl_get (o : Oracle) (params : PyDict) (st : St) :
    Except String PyVal × St :=
  match dictGet params "resourceType" with
  | none => (.error (keyErrorMsg "resourceType"), st)
  | some resource =>
    let name := (dictGet params "name").getD .vnull
    let nspace := (dictGet params "namespace").getD (.vstr "default")
    let output := (dictGet params "output").getD (.vstr "json")
    let args := kubectl_get_args resource name nspace output
    wrapText (managerKubectl o args st)

/-- Handler `kubectl_apply` (server.py lines 41-53).  The inline-manifest
path uses `subprocess.run(..., capture_output=True)`, which never raises on a
non-zero exit: the captured stdout is returned unconditionally.  The filename
path goes through `check_output` and raises on non-zero exit. -/
def kubectl_apply (o : Oracle) (params : PyDict) (st : St) :
    Except String PyVal × St :=
  let manifest := (dictGet params "manifest").getD .vnull
  let filename := (dictGet params "filename").getD .vnull
  if !truthy manifest && !truthy filename then
    (.error "Either manifest or filename required", st)
  else if truthy manifest then
    match manifest with
    | .vstr m =>
      let inv : Invocation :=
        { program := "kubectl", args := ["apply", "-f", "-"], stdinInput := some m }
      let res := o inv
      let st := { st with trace := st.trace ++ [.proc inv res] }
      (.ok (textResponse res.stdout), st)
    | _ => (.error typeErrorMsg, st)
  else
    wrapText (managerKubectl o [.vstr "apply", .vstr "-f", filename] st)

/-- The `if repo:` block of `install_helm_chart` (server.py lines 63-66):
`repo add <chart-before-first-slash> <repo>` then `repo update`.
`chart.split("/")` requires `chart` to be a string (`AttributeError`
otherwise, modelled with the generic attribute-error message). -/
def helmRepoSetup (o : Oracle) (chart repo : PyVal) (st : St) :
    Except String Unit × St :=
  match chart with
  | .vstr chartS =>
    let repo_name := pySplitFirst chartS '/'
    match managerHelm o [.vstr "repo", .vstr "add", .vstr repo_name, repo] st with
    | (.error e, st) => (.error e, st)
    | (.ok _, st) =>
      match managerHelm o [.vstr "repo", .vstr "update"] st with
      | (.error e, st) => (.error e, st)
      | (.ok _, st) => (.ok (), st)
  | _ => (.error notADictMsg, st)

/-- Handler `install_helm_chart` (server.py lines 56-83).  When `values` is
truthy the serialized values are written to `<name>-values.yaml`, `-f` plus
that file is appended to the arguments, and the `try/finally` removes the
file whether the install call returns or raises. -/
def install_helm_chart (o : Oracle) (params : PyDict) (st : St) :
    Except String PyVal × St :=
  match dictGet params "name" with
  | none => (.error (keyErrorMsg "name"), st)
  | some name =>
  match dictGet params "chart" with
  | none => (.error (keyErrorMsg "chart"), st)
  | some chart =>
  match dictGet params "namespace" with
  | none => (.error (keyErrorMsg "namespace"), st)
  | some nspace =>
  let repo := (dictGet params "repo").getD .vnull
  let values := (dictGet params "values").getD .vnull
  let setup : Except String Unit × St :=
    if truthy repo then helmRepoSetup o chart repo st else (.ok (), st)
  match setup with
  | (.error e, st) => (.error e, st)
  | (.ok _, st) =>
    let args : List PyVal :=
      [.vstr "install", name, chart, .vstr "--namespace", nspace,
        .vstr "--create-namespace"]
    if truthy values then
      let values_file := fstr name ++ "-values.yaml"
      let content := jsonDumps values
      let st := { st with fs := fsSet st.fs values_file content,
                          trace := st.trace ++ [.fsWrite values_file content] }
      let args := args ++ [.vstr "-f", .vstr values_file]
      let p := managerHelm o args st
      wrapText (p.1, { p.2 with fs := fsDel p.2.fs values_file,
                                trace := p.2.trace ++ [.fsRemove values_file] })
    else
      wrapText (managerHelm o args st)

/-- Runs a handler that needs `params` to be a dict; a non-dict `params`
raises when the handler first subscripts it, before any other effect. -/
def withParamsDict (paramsVal : PyVal) (st : St)
    (handler : PyDict → St → Except String PyVal × St) :
    Except String PyVal × St :=
  match paramsVal with
  | .vdict params => handler params st
  | _ => (.error notADictMsg, st)

/-- `handle_request` (server.py lines 86-100): route on `method`; `cleanup`
is a no-op returning `{"success": true}` as serialized text; an unknown
method raises `ValueError(f"Unknown method: ...")`. -/
def handle_request (o : Oracle) (request : PyVal) (st : St) :
    Except String PyVal × St :=
  match request with
  | .vdict entries =>
    let method := (dictGet entries "method").getD .vnull
    let paramsVal := (dictGet entries "params").getD (.vdict [])
    if pyEqStr method "kubectl_get" then
      withParamsDict paramsVal st (fun p s => kubectl_get o p s)
    else if pyEqStr method "kubectl_apply" then
      withParamsDict paramsVal st (fun p s => kubectl_apply o p s)
    else if pyEqStr method "install_helm_chart" then
      withParamsDict paramsVal st (fun p s => install_helm_chart o p s)
    else if pyEqStr method "cleanup" then
      (.ok (textResponse (jsonDumps (.vdict [("success", .vbool true)]))), st)
    else
      (.error ("Unknown method: " ++ fstr method), st)
  | _ => (.error notADictMsg, st)

/-- Outcome of the dispatch loop on a finite input: either the input was
consumed (`finished`) or an uncaught exception terminated the process
(`crashed`), in both cases with the lines printed so far and the state. -/
inductive LoopOutcome where
  | finished (outputs : List String) (st : St)
  | crashed (outputs : List String) (st : St) (exc : String)
  deriving DecidableEq

/-- The loop body of `main` (server.py lines 105-117).  Each line is
stripped; blank lines are skipped; `json.loads` runs OUTSIDE the
`try`-block, so a decode failure crashes the loop; errors from
`handle_request` are caught and printed as `{"error": str(exc)}`.
`loads` stands for `json.loads` on one line: `.ok` with the decoded value,
or `.error` with the `ValueError` message on invalid JSON. -/
def processLines (o : Oracle) (loads : String → Except String PyVal) :
    List String → St → List String → LoopOutcome
  | [], st, outputs => .finished outputs st
  | line :: rest, st, outputs =>
    let stripped := pyStrip line
    if stripped = "" then processLines o loads rest st outputs
    else
      match loads stripped with
      | .error e => .crashed outputs st e
      | .ok request =>
        match handle_request o request st with
        | (.ok response, st) =>
          processLines o loads rest st (outputs ++ [jsonDumps response])
        | (.error exc, st) =>
          processLines o loads rest st
            (outputs ++ [jsonDumps (.vdict [("error", .vstr exc)])])

/-- `main` (server.py lines 103-117): run the loop from an empty state. -/
def mainLoop (o : Oracle) (loads : String → Except String PyVal)
    (lines : List String) : LoopOutcome :=
  processLines o loads lines { fs := [], trace := [] } []

/-- The last subprocess event of a trace, if any. -/
def lastProc : List Event → Option (Invocation × ProcResult)
  | [] => none
  | e :: rest =>
    match lastProc rest with
    | some p => some p
    | none =>
      match e with
      | .proc inv res => some (inv, res)
      | _ => none

/-! ### Concrete fixtures for witnesses and counterexamples -/

/-- An environment in which every subprocess exits 0 and echoes its argument
list on stdout. -/
def oracle0 : Oracle := fun inv =>
  { exitCode := 0, stdout := String.intercalate " " inv.args, stderr := "" }

/-- An environment in which every subprocess exits 1 with empty stdout. -/
def oracleFail : Oracle := fun _ =>
  { exitCode := 1, stdout := "", stderr := "boom" }

/-- The state `main` starts from: empty working directory, empty trace. -/
def st0 : St := { fs := [], trace := [] }

/-- `json.loads` restricted to the concrete lines the dispatch-loop theorems
use: the object text for a `nope`-method request decodes, and any other line
fails with the `ValueError` message `json.loads` produces for text that does
not start a JSON value. -/
def loads0 (s : String) : Except String PyVal :=
  if s = "\x7b\"method\": \"nope\"\x7d" then .ok (.vdict [("method", .vstr "nope")])
  else .error "Expecting value: line 1 column 1 (char 0)"

/-- The inline-manifest invocation of `kubectl_apply`:
`subprocess.run(["kubectl", "apply", "-f", "-"], input=manifest, ...)`. -/
def applyStdinInv (m : String) : Invocation :=
  { program := "kubectl", args := ["apply", "-f", "-"], stdinInput := some m }

/-- A `kubectl` invocation with no stdin. -/
def kubectlInv (args : List String) : Invocation :=
  { program := "kubectl", args := args }

/-- A `helm` invocation with no stdin. -/
def helmInv (args : List String) : Invocation :=
  { program := "helm", args := args }

/-! ### Helper lemmas -/

theorem wrapText_snd (p : Except String String × St) : (wrapText p).2 = p.2 := by
  rcases p with ⟨r, s⟩
  cases r <;> rfl

theorem wrapText_eq_ok (p : Except String String × St) (resp : PyVal) (st2 : St) :
    wrapText p = (.ok resp, st2) ↔ ∃ r, p = (.ok r, st2) ∧ resp = textResponse r := by
  rcases p with ⟨r, s⟩
  cases r with
  | error e => simp [wrapText]
  | ok r =>
    simp only [wrapText, Prod.mk.injEq, Except.ok.injEq]
    constructor
    · rintro ⟨h1, h2⟩
      exact ⟨r, ⟨⟨rfl, h2⟩, h1.symm⟩⟩
    · rintro ⟨r2, ⟨⟨h1, h2⟩, h3⟩⟩
      exact ⟨by rw [h3, h1], h2⟩

theorem subprocessArgs_map_vstr (l : List String) :
    subprocessArgs (l.map .vstr) = .ok l := by
  induction l with
  | nil => rfl
  | cons x xs ih => simp [subprocessArgs, ih, Except.map]

theorem fsSet_of_absent (fs : FileSys) (n c : String) (h : fsGet fs n = none) :
    fsSet fs n c = fs ++ [(n, c)] := by
  induction fs with
  | nil => rfl
  | cons kv rest ih =>
    rcases kv with ⟨k, v⟩
    by_cases hk : k = n
    · simp [fsGet, hk] at h
    · simp only [fsGet, hk, if_false, ite_false] at h
      simp [fsSet, hk, ih h]

theorem fsDel_append_self (fs : FileSys) (n c : String) (h : fsGet fs n = none) :
    fsDel (fs ++ [(n, c)]) n = fs := by
  induction fs with
  | nil => simp [fsDel]
  | cons kv rest ih =>
    rcases kv with ⟨k, v⟩
    by_cases hk : k = n
    · simp [fsGet, hk] at h
    · simp only [fsGet, hk, if_false, ite_false] at h
      simp [fsDel, hk, ih h]

theorem fs_restore (fs : FileSys) (n c : String) (h : fsGet fs n = none) :
    fsDel (fsSet fs n c) n = fs := by
  rw [fsSet_of_absent fs n c h, fsDel_append_self fs n c h]

theorem checkOutputCall_snd (o : Oracle) (prog : String) (l : List String) (st : St) :
    (checkOutputCall o prog (l.map .vstr) st).2 =
      { st with trace := st.trace ++
        [.proc { program := prog, args := l } (o { program := prog, args := l })] } := by
  simp only [checkOutputCall, subprocessArgs_map_vstr]
  split <;> rfl

theorem lastProc_append (xs ys : List Event) :
    lastProc (xs ++ ys) =
      match lastProc ys with
      | some p => some p
      | none => lastProc xs := by
  induction xs with
  | nil =>
    simp only [List.nil_append]
    cases h : lastProc ys <;> simp [lastProc, h]
  | cons e rest ih =>
    cases h : lastProc ys <;> cases h2 : lastProc rest <;>
      simp [lastProc, List.cons_append, ih, h, h2]

theorem lastProc_append_proc (pre : List Event) (inv : Invocation) (res : ProcResult) :
    lastProc (pre ++ [.proc inv res]) = some (inv, res) := by
  rw [lastProc_append]
  simp [lastProc]

theorem lastProc_append_proc_remove (pre : List Event) (inv : Invocation)
    (res : ProcResult) (n : String) :
    lastProc (pre ++ [.proc inv res, .fsRemove n]) = some (inv, res) := by
  rw [lastProc_append]
  simp [lastProc]

theorem checkOutputCall_ok (o : Oracle) (prog : String) (args : List PyVal)
    (st : St) (r : String) (st2 : St)
    (h : checkOutputCall o prog args st = (.ok r, st2)) :
    ∃ l, st2.trace = st.trace ++
        [.proc { program := prog, args := l } (o { program := prog, args := l })] ∧
      r = (o { program := prog, args := l, stdinInput := none }).stdout := by
  unfold checkOutputCall at h
  cases hs : subprocessArgs args with
  | error e =>
    simp [hs] at h
  | ok l =>
    simp only [hs] at h
    by_cases hc : (o { program := prog, args := l, stdinInput := none }).exitCode = 0
    · rw [if_pos hc] at h
      injection h with h1 h2
      injection h1 with h3
      exact ⟨l, by rw [← h2], h3.symm⟩
    · rw [if_neg hc] at h
      simp at h

theorem checkOutputCall_trace_ext (o : Oracle) (prog : String) (args : List PyVal)
    (st : St) :
    ∃ evs, (checkOutputCall o prog args st).2.trace = st.trace ++ evs := by
  unfold checkOutputCall
  cases hs : subprocessArgs args with
  | error e => exact ⟨[], by simp [hs]⟩
  | ok l =>
    refine ⟨[.proc { program := prog, args := l } (o { program := prog, args := l })], ?_⟩
    simp only [hs]
    split <;> rfl

theorem managerHelm_trace_ext (o : Oracle) (args : List PyVal) (st : St) :
    ∃ evs, (managerHelm o args st).2.trace = st.trace ++ evs :=
  checkOutputCall_trace_ext o "helm" args st

theorem helmRepoSetup_trace_ext (o : Oracle) (c rv : PyVal) (st : St) :
    ∃ evs, (helmRepoSetup o c rv st).2.trace = st.trace ++ evs := by
  cases c with
  | vstr cs =>
    obtain ⟨evs1, h1⟩ := managerHelm_trace_ext o
      [.vstr "repo", .vstr "add", .vstr (pySplitFirst cs '/'), rv] st
    rcases hp : managerHelm o
        [.vstr "repo", .vstr "add", .vstr (pySplitFirst cs '/'), rv] st
      with ⟨pr, st1⟩
    rw [hp] at h1
    cases pr with
    | error e =>
      refine ⟨evs1, ?_⟩
      simp only [helmRepoSetup, hp]
      exact h1
    | ok u =>
      obtain ⟨evs2, h2⟩ := managerHelm_trace_ext o [.vstr "repo", .vstr "update"] st1
      rcases hq : managerHelm o [.vstr "repo", .vstr "update"] st1 with ⟨qr, st2⟩
      rw [hq] at h2
      have h2s : st2.trace = st.trace ++ (evs1 ++ evs2) := by
        rw [← List.append_assoc, ← h1]
        exact h2
      cases qr with
      | error e =>
        refine ⟨evs1 ++ evs2, ?_⟩
        simp only [helmRepoSetup, hp, hq]
        exact h2s
      | ok u2 =>
        refine ⟨evs1 ++ evs2, ?_⟩
        simp only [helmRepoSetup, hp, hq]
        exact h2s
  | vnull => exact ⟨[], by simp [helmRepoSetup]⟩
  | vbool b => exact ⟨[], by simp [helmRepoSetup]⟩
  | vnum n => exact ⟨[], by simp [helmRepoSetup]⟩
  | vlist items => exact ⟨[], by simp [helmRepoSetup]⟩
  | vdict entries => exact ⟨[], by simp [helmRepoSetup]⟩

theorem kubectl_get_ok_shape (o : Oracle) (params : PyDict) (st : St)
    (resp : PyVal) (st2 : St) (h : kubectl_get o params st = (.ok resp, st2)) :
    ∃ inv res, st2.trace = st.trace ++ [.proc inv res] ∧
      resp = textResponse res.stdout := by
  cases hrt : dictGet params "resourceType" with
  | none => simp [kubectl_get, hrt] at h
  | some resource =>
    simp only [kubectl_get, hrt] at h
    rw [wrapText_eq_ok] at h
    obtain ⟨r, hcall, hresp⟩ := h
    obtain ⟨l, htr, hout⟩ := checkOutputCall_ok o "kubectl" _ st r st2 hcall
    exact ⟨_, _, htr, by rw [hresp, hout]⟩

theorem kubectl_apply_ok_shape (o : Oracle) (params : PyDict) (st : St)
    (resp : PyVal) (st2 : St) (h : kubectl_apply o params st = (.ok resp, st2)) :
    ∃ inv res, st2.trace = st.trace ++ [.proc inv res] ∧
      resp = textResponse res.stdout := by
  simp only [kubectl_apply] at h
  split at h
  · simp at h
  · split at h
    · split at h
      · injection h with h1 h2
        injection h1 with h3
        exact ⟨_, _, by rw [← h2], h3.symm⟩
      · simp at h
    · rw [wrapText_eq_ok] at h
      obtain ⟨r, hcall, hresp⟩ := h
      obtain ⟨l, htr, hout⟩ := checkOutputCall_ok o "kubectl" _ st r st2 hcall
      exact ⟨_, _, htr, by rw [hresp, hout]⟩

theorem install_helm_chart_ok_shape (o : Oracle) (params : PyDict) (st : St)
    (resp : PyVal) (st2 : St) (h : install_helm_chart o params st = (.ok resp, st2)) :
    ∃ pre inv res,
      (st2.trace = st.trace ++ (pre ++ [.proc inv res]) ∨
        ∃ n, st2.trace = st.trace ++ (pre ++ [.proc inv res, .fsRemove n])) ∧
      resp = textResponse res.stdout := by
  simp only [install_helm_chart] at h
  split at h
  · simp at h
  · rename_i nameV hname
    split at h
    · simp at h
    · rename_i chartV hchart
      split at h
      · simp at h
      · rename_i nsV hns
        split at h
        · simp at h
        · rename_i u st1 hsetup
          have hext : ∃ evs, st1.trace = st.trace ++ evs := by
            by_cases hr : truthy ((dictGet params "repo").getD .vnull) = true
            · rw [if_pos hr] at hsetup
              have hx := helmRepoSetup_trace_ext o chartV
                ((dictGet params "repo").getD .vnull) st
              rw [hsetup] at hx
              exact hx
            · rw [if_neg hr] at hsetup
              injection hsetup with hu hst
              exact ⟨[], by rw [← hst, List.append_nil]⟩
          obtain ⟨evs, hevs⟩ := hext
          split at h
          · rw [wrapText_eq_ok] at h
            obtain ⟨r, hpair, hresp⟩ := h
            rcases hmm : managerHelm o
                ([.vstr "install", nameV, chartV, .vstr "--namespace", nsV,
                  .vstr "--create-namespace"] ++
                  [.vstr "-f", .vstr (fstr nameV ++ "-values.yaml")])
                { fs := fsSet st1.fs (fstr nameV ++ "-values.yaml")
                    (jsonDumps ((dictGet params "values").getD .vnull)),
                  trace := st1.trace ++ [.fsWrite (fstr nameV ++ "-values.yaml")
                    (jsonDumps ((dictGet params "values").getD .vnull))] }
              with ⟨pr, stp⟩
            rw [hmm] at hpair
            injection hpair with h1 h2
            simp only [] at h1
            cases pr with
            | error e => simp at h1
            | ok rr =>
              obtain ⟨l, htr, hout⟩ := checkOutputCall_ok o "helm" _ _ rr stp hmm
              refine ⟨evs ++ [.fsWrite (fstr nameV ++ "-values.yaml")
                  (jsonDumps ((dictGet params "values").getD .vnull))],
                { program := "helm", args := l }, o { program := "helm", args := l },
                Or.inr ⟨fstr nameV ++ "-values.yaml", ?_⟩, ?_⟩
              · rw [← h2]
                show stp.trace ++ [.fsRemove (fstr nameV ++ "-values.yaml")] = _
                rw [htr, hevs]
                simp [List.append_assoc]
              · injection h1 with h3
                rw [hresp, ← h3, hout]
          · rw [wrapText_eq_ok] at h
            obtain ⟨r, hcall, hresp⟩ := h
            obtain ⟨l, htr, hout⟩ := checkOutputCall_ok o "helm" _ st1 r st2 hcall
            refine ⟨evs, { program := "helm", args := l },
              o { program := "helm", args := l }, Or.inl ?_, by rw [hresp, hout]⟩
            rw [htr, hevs]
            simp [List.append_assoc]

theorem drop_length_append (xs ys : List Event) : (xs ++ ys).drop xs.length = ys := by
  induction xs with
  | nil => rfl
  | cons x rest ih =>
    simp only [List.cons_append, List.length_cons, List.drop_succ_cons]
    exact ih

/-! ### Claims -/

/-- C7: when neither `manifest` nor `filename` is truthy, `kubectl_apply`
raises `ValueError("Either manifest or filename required")` and the state is
untouched: in particular no subprocess invocation was recorded. -/
theorem kubectl_apply_requires_manifest_or_filename
    (o : Oracle) (params : PyDict) (st : St)
    (hm : truthy ((dictGet params "manifest").getD .vnull) = false)
    (hf : truthy ((dictGet params "filename").getD .vnull) = false) :
    kubectl_apply o params st = (.error "Either manifest or filename required", st) := by
  simp [kubectl_apply, hm, hf]

/-- C7 witness: the empty params dict triggers the validation error with no
recorded invocation. -/
theorem kubectl_apply_requires_manifest_or_filename_witness :
    kubectl_apply oracle0 [] st0 = (.error "Either manifest or filename required", st0) :=
  kubectl_apply_requires_manifest_or_filename oracle0 [] st0 rfl rfl

/-- C2 counterexample: with `manifest` set and an environment whose tool
exits 1, `kubectl_apply` still returns the success envelope wrapping the
captured (empty) stdout, not an error, because `subprocess.run` with
`capture_output=True` does not check the exit status. -/
theorem kubectl_apply_nonzero_exit_counterexample :
    kubectl_apply oracleFail [("manifest", .vstr "kind: Pod")] st0 =
      (.ok (textResponse ""),
        { fs := [],
          trace := [.proc (applyStdinInv "kind: Pod")
            { exitCode := 1, stdout := "", stderr := "boom" }] }) := rfl

/-- C2 amended: on the inline-manifest path the exit status of the external
tool is never inspected; whatever the exit code, the handler returns the
success envelope wrapping the captured stdout (the non-zero-exit error
contract applies only to the `check_output`-based paths). -/
theorem kubectl_apply_manifest_ignores_exit_status
    (o : Oracle) (params : PyDict) (st : St) (m : String)
    (hm : dictGet params "manifest" = some (.vstr m)) (hne : m ≠ "") :
    kubectl_apply o params st =
      (.ok (textResponse (o (applyStdinInv m)).stdout),
        { st with trace := st.trace ++ [.proc (applyStdinInv m) (o (applyStdinInv m))] }) := by
  simp [kubectl_apply, hm, truthy, hne, applyStdinInv]

/-- C2 amended witness: at exit code 1 the handler returns the success
envelope with the captured stdout. -/
theorem kubectl_apply_manifest_ignores_exit_status_witness :
    kubectl_apply oracleFail [("manifest", .vstr "kind: Pod")] st0 =
      (.ok (textResponse (oracleFail (applyStdinInv "kind: Pod")).stdout),
        { st0 with trace := [.proc (applyStdinInv "kind: Pod")
          (oracleFail (applyStdinInv "kind: Pod"))] }) :=
  kubectl_apply_manifest_ignores_exit_status oracleFail
    [("manifest", .vstr "kind: Pod")] st0 "kind: Pod" rfl (by decide)

/-- C4: when both `manifest` (truthy) and `filename` are supplied, the
manifest path wins: the tool is invoked with exactly `["apply", "-f", "-"]`
and the manifest text is passed on standard input, not as a file argument. -/
theorem kubectl_apply_manifest_precedence
    (o : Oracle) (params : PyDict) (st : St) (m : String) (fv : PyVal)
    (hm : dictGet params "manifest" = some (.vstr m)) (hne : m ≠ "")
    (_hf : dictGet params "filename" = some fv) :
    kubectl_apply o params st =
      (.ok (textResponse (o (applyStdinInv m)).stdout),
        { st with trace := st.trace ++ [.proc (applyStdinInv m) (o (applyStdinInv m))] }) := by
  simp [kubectl_apply, hm, truthy, hne, applyStdinInv]

/-- C4 witness: with both keys present the recorded invocation is
`kubectl apply -f -` with the manifest on stdin. -/
theorem kubectl_apply_manifest_precedence_witness :
    kubectl_apply oracle0 [("manifest", .vstr "kind: Pod"), ("filename", .vstr "a.yaml")] st0 =
      (.ok (textResponse (oracle0 (applyStdinInv "kind: Pod")).stdout),
        { st0 with trace := [.proc (applyStdinInv "kind: Pod")
          (oracle0 (applyStdinInv "kind: Pod"))] }) :=
  kubectl_apply_manifest_precedence oracle0
    [("manifest", .vstr "kind: Pod"), ("filename", .vstr "a.yaml")] st0 "kind: Pod"
    (.vstr "a.yaml") rfl (by decide) rfl

/-- C1 counterexample: a line that is not valid JSON makes `json.loads`
raise OUTSIDE the `try`-block (server.py line 109), so the loop terminates
with an uncaught exception and emits no `\x7b"error": ...\x7d` response for
that line. -/
theorem dispatch_decode_error_crashes :
    mainLoop oracle0 loads0 ["not json"] =
      .crashed [] st0 "Expecting value: line 1 column 1 (char 0)" := rfl

/-- C1 amended: an error raised by `handle_request` on one line is caught at
the loop boundary, printed as `\x7b"error": str(exc)\x7d`, and the loop goes
on with the remaining lines; but a decode failure of the line itself is
raised before the `try`-block and terminates the loop. -/
theorem dispatch_loop_error_isolation
    (o : Oracle) (loads : String → Except String PyVal) (line : String)
    (rest : List String) (st : St) (outputs : List String)
    (hline : pyStrip line ≠ "") :
    (∀ req exc st2, loads (pyStrip line) = .ok req →
        handle_request o req st = (.error exc, st2) →
        processLines o loads (line :: rest) st outputs =
          processLines o loads rest st2
            (outputs ++ [jsonDumps (.vdict [("error", .vstr exc)])])) ∧
    (∀ e, loads (pyStrip line) = .error e →
        processLines o loads (line :: rest) st outputs = .crashed outputs st e) := by
  constructor
  · intro req exc st2 hok hhandle
    simp [processLines, hline, hok, hhandle]
  · intro e herr
    simp [processLines, hline, herr]

/-- C1 amended witness: a decodable line whose handler raises (unknown
method) yields one error response and the loop finishes the input; the
hypotheses are discharged on the concrete request text. -/
theorem dispatch_loop_error_isolation_witness :
    processLines oracle0 loads0 ["\x7b\"method\": \"nope\"\x7d"] st0 [] =
      .finished [jsonDumps (.vdict [("error", .vstr "Unknown method: nope")])] st0 := by
  have h := (dispatch_loop_error_isolation oracle0 loads0
    "\x7b\"method\": \"nope\"\x7d" [] st0 [] (by decide)).1
    (.vdict [("method", .vstr "nope")]) "Unknown method: nope" st0 rfl rfl
  exact h.trans rfl

/-- C5: `kubectl_get` builds the arguments in exactly the order
`get <resourceType> [<name>] [-n <namespace>] -o <output>`, with the
namespace defaulting to `default` and the output to `json` when those keys
are absent, and hands them to one `kubectl` invocation. -/
theorem kubectl_get_arg_order
    (o : Oracle) (params : PyDict) (st : St) (rt out : String)
    (nameArgs nsArgs : List String)
    (hrt : dictGet params "resourceType" = some (.vstr rt)) (hnodes : rt ≠ "nodes")
    (hname : dictGet params "name" = none ∧ nameArgs = [] ∨
      ∃ n : String, dictGet params "name" = some (.vstr n) ∧ n ≠ "" ∧ nameArgs = [n])
    (hns : dictGet params "namespace" = none ∧ nsArgs = ["-n", "default"] ∨
      ∃ ns : String, dictGet params "namespace" = some (.vstr ns) ∧ ns ≠ "" ∧
        nsArgs = ["-n", ns])
    (hout : dictGet params "output" = none ∧ out = "json" ∨
      dictGet params "output" = some (.vstr out)) :
    (kubectl_get o params st).2.trace =
      st.trace ++ [.proc (kubectlInv (["get", rt] ++ nameArgs ++ nsArgs ++ ["-o", out]))
        (o (kubectlInv (["get", rt] ++ nameArgs ++ nsArgs ++ ["-o", out])))] := by
  have harg : kubectl_get_args (.vstr rt) ((dictGet params "name").getD .vnull)
      ((dictGet params "namespace").getD (.vstr "default"))
      ((dictGet params "output").getD (.vstr "json")) =
      (["get", rt] ++ nameArgs ++ nsArgs ++ ["-o", out]).map .vstr := by
    rcases hname with ⟨hn, rfl⟩ | ⟨n, hn, hnne, rfl⟩ <;>
      rcases hns with ⟨hs, rfl⟩ | ⟨ns, hs, hsne, rfl⟩ <;>
      rcases hout with ⟨ho, rfl⟩ | ho <;>
      simp_all [kubectl_get_args, truthy, pyEqStr]
  simp only [kubectl_get, hrt]
  rw [harg, wrapText_snd]
  simp only [managerKubectl]
  rw [checkOutputCall_snd]
  simp [kubectlInv]

/-- C5 witness: `resourceType="pods"` with no name, no namespace and no
output key produces exactly `["get", "pods", "-n", "default", "-o", "json"]`. -/
theorem kubectl_get_arg_order_witness :
    (kubectl_get oracle0 [("resourceType", .vstr "pods")] st0).2.trace =
      [.proc (kubectlInv ["get", "pods", "-n", "default", "-o", "json"])
        (oracle0 (kubectlInv ["get", "pods", "-n", "default", "-o", "json"]))] := by
  have h := kubectl_get_arg_order oracle0 [("resourceType", .vstr "pods")] st0
    "pods" "json" [] ["-n", "default"] rfl (by decide)
    (Or.inl ⟨rfl, rfl⟩) (Or.inl ⟨rfl, rfl⟩) (Or.inl ⟨rfl, rfl⟩)
  exact h.trans rfl

/-- C6: for `resourceType="nodes"` the `-n` flag is never emitted, no matter
what namespace value the params carry (any value, or none at all). -/
theorem kubectl_get_nodes_no_namespace_flag
    (o : Oracle) (params : PyDict) (st : St) (out : String) (nameArgs : List String)
    (hrt : dictGet params "resourceType" = some (.vstr "nodes"))
    (hname : dictGet params "name" = none ∧ nameArgs = [] ∨
      ∃ n : String, dictGet params "name" = some (.vstr n) ∧ n ≠ "" ∧ n ≠ "-n" ∧
        nameArgs = [n])
    (hout : dictGet params "output" = none ∧ out = "json" ∨
      dictGet params "output" = some (.vstr out))
    (houtn : out ≠ "-n") :
    ∃ kargs : List String,
      (kubectl_get o params st).2.trace =
        st.trace ++ [.proc (kubectlInv kargs) (o (kubectlInv kargs))] ∧
      "-n" ∉ kargs := by
  refine ⟨["get", "nodes"] ++ nameArgs ++ ["-o", out], ?_, ?_⟩
  · have harg : kubectl_get_args (.vstr "nodes") ((dictGet params "name").getD .vnull)
        ((dictGet params "namespace").getD (.vstr "default"))
        ((dictGet params "output").getD (.vstr "json")) =
        (["get", "nodes"] ++ nameArgs ++ ["-o", out]).map .vstr := by
      rcases hname with ⟨hn, rfl⟩ | ⟨n, hn, hnne, hnn, rfl⟩ <;>
        rcases hout with ⟨ho, rfl⟩ | ho <;>
        simp_all [kubectl_get_args, truthy, pyEqStr]
    simp only [kubectl_get, hrt]
    rw [harg, wrapText_snd]
    simp only [managerKubectl]
    rw [checkOutputCall_snd]
    simp [kubectlInv]
  · rcases hname with ⟨hn, rfl⟩ | ⟨n, hn, hnne, hnn, rfl⟩ <;>
      simp_all [List.mem_append, eq_comm]

/-- C6 witness: `resourceType="nodes"` with an explicit namespace still
yields an argument list without `-n`. -/
theorem kubectl_get_nodes_no_namespace_flag_witness :
    ∃ kargs : List String,
      (kubectl_get oracle0
        [("resourceType", .vstr "nodes"), ("namespace", .vstr "kube-system")] st0).2.trace =
        [.proc (kubectlInv kargs) (oracle0 (kubectlInv kargs))] ∧
      "-n" ∉ kargs := by
  have h := kubectl_get_nodes_no_namespace_flag oracle0
    [("resourceType", .vstr "nodes"), ("namespace", .vstr "kube-system")] st0
    "json" [] rfl (Or.inl ⟨rfl, rfl⟩) (Or.inl ⟨rfl, rfl⟩) (by decide)
  simpa using h

/-- `truthy` on the concrete shapes the handlers test. -/
theorem truthy_vnull : truthy .vnull = false := rfl

/-- A non-empty string is truthy. -/
theorem truthy_vstr_of_ne (s : String) (h : s ≠ "") : truthy (.vstr s) = true := by
  simp [truthy, h]

/-- Evaluation of the `if repo:` block on string chart and repo values. -/
theorem helmRepoSetup_eq (o : Oracle) (chart r : String) (st : St) :
    helmRepoSetup o (.vstr chart) (.vstr r) st =
      (let addInv := helmInv ["repo", "add", pySplitFirst chart '/', r]
       let updInv := helmInv ["repo", "update"]
       if (o addInv).exitCode = 0 then
         if (o updInv).exitCode = 0 then
           (.ok (), { st with trace := st.trace ++
             [.proc addInv (o addInv), .proc updInv (o updInv)] })
         else
           (.error (calledProcessErrorMsg ("helm" :: updInv.args) (o updInv).exitCode),
             { st with trace := st.trace ++
               [.proc addInv (o addInv), .proc updInv (o updInv)] })
       else
         (.error (calledProcessErrorMsg ("helm" :: addInv.args) (o addInv).exitCode),
           { st with trace := st.trace ++ [.proc addInv (o addInv)] })) := by
  by_cases h1 : (o (helmInv ["repo", "add", pySplitFirst chart '/', r])).exitCode = 0 <;>
    by_cases h2 : (o (helmInv ["repo", "update"])).exitCode = 0 <;>
    simp_all [helmRepoSetup, managerHelm, checkOutputCall, subprocessArgs, Except.map,
      helmInv]

/-- C3: with a truthy `values` mapping (and no repo step), the handler
writes `<name>-values.yaml` containing exactly `json.dumps(values)`, appends
`-f <that file>` to the install arguments, runs the install, and removes the
file afterwards whether the install succeeded or raised; a file that did not
exist beforehand does not exist after the handler returns. -/
theorem install_helm_chart_values_file_lifecycle
    (o : Oracle) (params : PyDict) (st : St) (name chart ns : String) (values : PyVal)
    (hn : dictGet params "name" = some (.vstr name))
    (hc : dictGet params "chart" = some (.vstr chart))
    (hns : dictGet params "namespace" = some (.vstr ns))
    (hrepo : dictGet params "repo" = none)
    (hv : dictGet params "values" = some values)
    (hvt : truthy values = true) :
    (install_helm_chart o params st =
      (let vf := name ++ "-values.yaml"
       let inv := helmInv ["install", name, chart, "--namespace", ns,
         "--create-namespace", "-f", vf]
       ((if (o inv).exitCode = 0 then .ok (textResponse (o inv).stdout)
         else .error (calledProcessErrorMsg ("helm" :: inv.args) (o inv).exitCode)),
        { fs := fsDel (fsSet st.fs vf (jsonDumps values)) vf,
          trace := st.trace ++ [.fsWrite vf (jsonDumps values),
            .proc inv (o inv), .fsRemove vf] }))) ∧
    (fsGet st.fs (name ++ "-values.yaml") = none →
      (install_helm_chart o params st).2.fs = st.fs) := by
  have hmain : install_helm_chart o params st =
      (let vf := name ++ "-values.yaml"
       let inv := helmInv ["install", name, chart, "--namespace", ns,
         "--create-namespace", "-f", vf]
       ((if (o inv).exitCode = 0 then .ok (textResponse (o inv).stdout)
         else .error (calledProcessErrorMsg ("helm" :: inv.args) (o inv).exitCode)),
        { fs := fsDel (fsSet st.fs vf (jsonDumps values)) vf,
          trace := st.trace ++ [.fsWrite vf (jsonDumps values),
            .proc inv (o inv), .fsRemove vf] })) := by
    simp only [install_helm_chart, hn, hc, hns, hrepo, hv, Option.getD_none,
      Option.getD_some]
    rw [if_neg (by simp [truthy] : ¬truthy PyVal.vnull = true)]
    by_cases hi : (o (helmInv ["install", name, chart, "--namespace", ns,
        "--create-namespace", "-f", name ++ "-values.yaml"])).exitCode = 0 <;>
      simp only [helmInv] at hi <;>
      simp [hvt, hi, fstr, managerHelm, checkOutputCall, subprocessArgs, Except.map,
        wrapText, helmInv]
  refine ⟨hmain, fun habs => ?_⟩
  rw [hmain]
  exact fs_restore st.fs (name ++ "-values.yaml") (jsonDumps values) habs

/-- C3 witness: installing with `values={"a": 1}` writes, uses and removes
`app-values.yaml`, leaving the working directory as it was. -/
theorem install_helm_chart_values_file_lifecycle_witness :
    (install_helm_chart oracle0
        [("name", .vstr "app"), ("chart", .vstr "repo/chart"),
          ("namespace", .vstr "ns"), ("values", .vdict [("a", .vnum 1)])] st0 =
      (let vf := "app" ++ "-values.yaml"
       let inv := helmInv ["install", "app", "repo/chart", "--namespace", "ns",
         "--create-namespace", "-f", vf]
       ((if (oracle0 inv).exitCode = 0 then .ok (textResponse (oracle0 inv).stdout)
         else .error (calledProcessErrorMsg ("helm" :: inv.args) (oracle0 inv).exitCode)),
        { fs := fsDel (fsSet st0.fs vf (jsonDumps (.vdict [("a", .vnum 1)]))) vf,
          trace := st0.trace ++ [.fsWrite vf (jsonDumps (.vdict [("a", .vnum 1)])),
            .proc inv (oracle0 inv), .fsRemove vf] }))) ∧
    (install_helm_chart oracle0
        [("name", .vstr "app"), ("chart", .vstr "repo/chart"),
          ("namespace", .vstr "ns"), ("values", .vdict [("a", .vnum 1)])] st0).2.fs = [] := by
  have h := install_helm_chart_values_file_lifecycle oracle0
    [("name", .vstr "app"), ("chart", .vstr "repo/chart"),
      ("namespace", .vstr "ns"), ("values", .vdict [("a", .vnum 1)])] st0
    "app" "repo/chart" "ns" (.vdict [("a", .vnum 1)]) rfl rfl rfl rfl rfl (by decide)
  exact ⟨h.1, h.2 rfl⟩

/-- C8: when `repo` is a truthy string, `repo_name` is the part of `chart`
before the first slash, and exactly the two invocations
`helm repo add <repo_name> <repo>` then `helm repo update` happen, in that
order, before the install invocation; a non-zero exit of either preliminary
call propagates as the handler error with nothing further executed and no
rollback of what already ran. -/
theorem install_helm_chart_repo_setup
    (o : Oracle) (params : PyDict) (st : St) (name chart ns r : String)
    (hn : dictGet params "name" = some (.vstr name))
    (hc : dictGet params "chart" = some (.vstr chart))
    (hns : dictGet params "namespace" = some (.vstr ns))
    (hrepo : dictGet params "repo" = some (.vstr r)) (hre : r ≠ "")
    (hvalues : truthy ((dictGet params "values").getD .vnull) = false) :
    (let addInv := helmInv ["repo", "add", pySplitFirst chart '/', r]
     let updInv := helmInv ["repo", "update"]
     let instInv := helmInv ["install", name, chart, "--namespace", ns,
       "--create-namespace"]
     ((o addInv).exitCode ≠ 0 →
        install_helm_chart o params st =
          (.error (calledProcessErrorMsg ("helm" :: addInv.args) (o addInv).exitCode),
            { st with trace := st.trace ++ [.proc addInv (o addInv)] })) ∧
     ((o addInv).exitCode = 0 → (o updInv).exitCode ≠ 0 →
        install_helm_chart o params st =
          (.error (calledProcessErrorMsg ("helm" :: updInv.args) (o updInv).exitCode),
            { st with trace := st.trace ++ [.proc addInv (o addInv),
              .proc updInv (o updInv)] })) ∧
     ((o addInv).exitCode = 0 → (o updInv).exitCode = 0 →
        install_helm_chart o params st =
          ((if (o instInv).exitCode = 0 then .ok (textResponse (o instInv).stdout)
            else .error (calledProcessErrorMsg ("helm" :: instInv.args)
              (o instInv).exitCode)),
            { st with trace := st.trace ++ [.proc addInv (o addInv),
              .proc updInv (o updInv), .proc instInv (o instInv)] }))) := by
  have htr : truthy (.vstr r) = true := truthy_vstr_of_ne r hre
  refine ⟨?_, ?_, ?_⟩
  · intro hadd
    simp only [install_helm_chart, hn, hc, hns, hrepo, Option.getD_some,
      if_pos htr, helmRepoSetup_eq]
    rw [if_neg hadd]
  · intro hadd hupd
    simp only [install_helm_chart, hn, hc, hns, hrepo, Option.getD_some,
      if_pos htr, helmRepoSetup_eq]
    rw [if_pos hadd, if_neg hupd]
  · intro hadd hupd
    simp only [install_helm_chart, hn, hc, hns, hrepo, Option.getD_some,
      if_pos htr, helmRepoSetup_eq]
    rw [if_pos hadd, if_pos hupd]
    by_cases hi : (o (helmInv ["install", name, chart, "--namespace", ns,
        "--create-namespace"])).exitCode = 0 <;>
      simp only [helmInv] at hi <;>
      simp [hvalues, hi, managerHelm, checkOutputCall, subprocessArgs, Except.map,
        wrapText, helmInv]

/-- C8 witness: with `chart="myrepo/mychart"` and `repo="https://example.com"`
in an all-success environment, the trace is `repo add myrepo
https://example.com`, `repo update`, then the install invocation. -/
theorem install_helm_chart_repo_setup_witness :
    install_helm_chart oracle0
      [("name", .vstr "app"), ("chart", .vstr "myrepo/mychart"),
        ("namespace", .vstr "ns"), ("repo", .vstr "https://example.com")] st0 =
      (.ok (textResponse (oracle0 (helmInv ["install", "app", "myrepo/mychart",
          "--namespace", "ns", "--create-namespace"])).stdout),
        { st0 with trace :=
          [.proc (helmInv ["repo", "add", "myrepo", "https://example.com"])
            (oracle0 (helmInv ["repo", "add", "myrepo", "https://example.com"])),
           .proc (helmInv ["repo", "update"]) (oracle0 (helmInv ["repo", "update"])),
           .proc (helmInv ["install", "app", "myrepo/mychart", "--namespace", "ns",
             "--create-namespace"])
            (oracle0 (helmInv ["install", "app", "myrepo/mychart", "--namespace",
              "ns", "--create-namespace"]))] }) := by
  have h := (install_helm_chart_repo_setup oracle0
    [("name", .vstr "app"), ("chart", .vstr "myrepo/mychart"),
      ("namespace", .vstr "ns"), ("repo", .vstr "https://example.com")] st0
    "app" "myrepo/mychart" "ns" "https://example.com" rfl rfl rfl rfl
    (by decide) rfl).2.2 rfl rfl
  exact h.trans rfl

/-- C9: whenever `kubectl_get`, `kubectl_apply` or `install_helm_chart`
returns a success envelope, the text it wraps is exactly the captured stdout
of the last subprocess invocation the handler performed, untransformed. -/
theorem success_text_equals_last_stdout
    (o : Oracle) (params : PyDict) (st : St) (resp : PyVal) (st2 : St)
    (h : kubectl_get o params st = (.ok resp, st2) ∨
         kubectl_apply o params st = (.ok resp, st2) ∨
         install_helm_chart o params st = (.ok resp, st2)) :
    ∃ inv res, lastProc (st2.trace.drop st.trace.length) = some (inv, res) ∧
      resp = textResponse res.stdout := by
  rcases h with h | h | h
  · obtain ⟨inv, res, htr, hresp⟩ := kubectl_get_ok_shape o params st resp st2 h
    refine ⟨inv, res, ?_, hresp⟩
    rw [htr, drop_length_append]
    simp [lastProc]
  · obtain ⟨inv, res, htr, hresp⟩ := kubectl_apply_ok_shape o params st resp st2 h
    refine ⟨inv, res, ?_, hresp⟩
    rw [htr, drop_length_append]
    simp [lastProc]
  · obtain ⟨pre, inv, res, htr, hresp⟩ :=
      install_helm_chart_ok_shape o params st resp st2 h
    refine ⟨inv, res, ?_, hresp⟩
    rcases htr with htr | ⟨n, htr⟩
    · rw [htr, drop_length_append, lastProc_append_proc]
    · rw [htr, drop_length_append, lastProc_append_proc_remove]

/-- C9 witness: a successful `kubectl_get` instantiates the round-trip, with
its single recorded invocation as the final one. -/
theorem success_text_equals_last_stdout_witness :
    ∃ inv res,
      lastProc (List.drop st0.trace.length
        [Event.proc (kubectlInv ["get", "pods", "-n", "default", "-o", "json"])
          (oracle0 (kubectlInv ["get", "pods", "-n", "default", "-o", "json"]))]) =
        some (inv, res) ∧
      textResponse
          (oracle0 (kubectlInv ["get", "pods", "-n", "default", "-o", "json"])).stdout =
        textResponse res.stdout :=
  success_text_equals_last_stdout oracle0 [("resourceType", .vstr "pods")] st0
    (textResponse
      (oracle0 (kubectlInv ["get", "pods", "-n", "default", "-o", "json"])).stdout)
    { fs := [],
      trace := [.proc (kubectlInv ["get", "pods", "-n", "default", "-o", "json"])
        (oracle0 (kubectlInv ["get", "pods", "-n", "default", "-o", "json"]))] }
    (Or.inl rfl)

/-- C10: optional parameters are tested by truthiness, not key membership:
a key supplied with any falsy value behaves exactly like an absent key — a
falsy `name` is omitted from the `kubectl_get` arguments, an explicitly
supplied falsy `namespace` suppresses `-n`, a falsy `manifest` routes
`kubectl_apply` to the filename path (or to the validation error when
`filename` is falsy too), and a falsy `values` or `repo` skips the values
file or the repo add/update steps of `install_helm_chart`. -/
theorem falsy_optional_params_treated_as_absent
    (o : Oracle) (st : St) (v : PyVal) (rt f n c ns : String)
    (hv : truthy v = false) (hf : f ≠ "") :
    (kubectl_get o [("resourceType", .vstr rt), ("name", v)] st =
       kubectl_get o [("resourceType", .vstr rt)] st) ∧
    ((kubectl_get o [("resourceType", .vstr rt), ("namespace", v)] st).2.trace =
       st.trace ++ [.proc (kubectlInv ["get", rt, "-o", "json"])
         (o (kubectlInv ["get", rt, "-o", "json"]))]) ∧
    (kubectl_apply o [("manifest", v), ("filename", .vstr f)] st =
       kubectl_apply o [("filename", .vstr f)] st) ∧
    (kubectl_apply o [("manifest", v), ("filename", v)] st =
       (.error "Either manifest or filename required", st)) ∧
    (install_helm_chart o [("name", .vstr n), ("chart", .vstr c),
        ("namespace", .vstr ns), ("values", v)] st =
       install_helm_chart o [("name", .vstr n), ("chart", .vstr c),
        ("namespace", .vstr ns)] st) ∧
    (install_helm_chart o [("name", .vstr n), ("chart", .vstr c),
        ("namespace", .vstr ns), ("repo", v)] st =
       install_helm_chart o [("name", .vstr n), ("chart", .vstr c),
        ("namespace", .vstr ns)] st) := by
  have htf : truthy (.vstr f) = true := truthy_vstr_of_ne f hf
  have htd : truthy (.vstr "default") = true := by decide
  refine ⟨?_, ?_, ?_, ?_, ?_, ?_⟩
  · simp [kubectl_get, dictGet, kubectl_get_args, hv, truthy_vnull, htd]
  · have hrt : dictGet [("resourceType", .vstr rt), ("namespace", v)] "resourceType"
        = some (.vstr rt) := rfl
    have hname : dictGet [("resourceType", .vstr rt), ("namespace", v)] "name"
        = none := rfl
    have hnsv : dictGet [("resourceType", .vstr rt), ("namespace", v)] "namespace"
        = some v := rfl
    have hout : dictGet [("resourceType", .vstr rt), ("namespace", v)] "output"
        = none := rfl
    simp only [kubectl_get, hrt, hname, hnsv, hout, Option.getD_some, Option.getD_none]
    rw [show kubectl_get_args (.vstr rt) .vnull v (.vstr "json") =
        (["get", rt, "-o", "json"]).map .vstr by
      simp [kubectl_get_args, hv, truthy_vnull]]
    rw [wrapText_snd]
    simp only [managerKubectl]
    rw [checkOutputCall_snd]
    simp [kubectlInv]
  · simp [kubectl_apply, dictGet, hv, truthy_vnull, htf]
  · simp [kubectl_apply, dictGet, hv]
  · simp [install_helm_chart, dictGet, hv, truthy_vnull]
  · simp [install_helm_chart, dictGet, hv, truthy_vnull]

/-- C10 witness: empty string, supplied for each optional key in turn,
behaves like the absent key at concrete requests. -/
theorem falsy_optional_params_treated_as_absent_witness :
    (kubectl_get oracle0 [("resourceType", .vstr "pods"), ("name", .vstr "")] st0 =
       kubectl_get oracle0 [("resourceType", .vstr "pods")] st0) ∧
    ((kubectl_get oracle0 [("resourceType", .vstr "pods"), ("namespace", .vstr "")] st0).2.trace =
       st0.trace ++ [.proc (kubectlInv ["get", "pods", "-o", "json"])
         (oracle0 (kubectlInv ["get", "pods", "-o", "json"]))]) ∧
    (kubectl_apply oracle0 [("manifest", .vstr ""), ("filename", .vstr "a.yaml")] st0 =
       kubectl_apply oracle0 [("filename", .vstr "a.yaml")] st0) ∧
    (kubectl_apply oracle0 [("manifest", .vstr ""), ("filename", .vstr "")] st0 =
       (.error "Either manifest or filename required", st0)) ∧
    (install_helm_chart oracle0 [("name", .vstr "app"), ("chart", .vstr "ch"),
        ("namespace", .vstr "ns"), ("values", .vstr "")] st0 =
       install_helm_chart oracle0 [("name", .vstr "app"), ("chart", .vstr "ch"),
        ("namespace", .vstr "ns")] st0) ∧
    (install_helm_chart oracle0 [("name", .vstr "app"), ("chart", .vstr "ch"),
        ("namespace", .vstr "ns"), ("repo", .vstr "")] st0 =
       install_helm_chart oracle0 [("name", .vstr "app"), ("chart", .vstr "ch"),
        ("namespace", .vstr "ns")] st0) :=
  falsy_optional_params_treated_as_absent oracle0 st0 (.vstr "") "pods" "a.yaml"
    "app" "ch" "ns" (by decide) (by decide)

end KubeMCP
